import Mathlib

/-!
Verification of the GitHub OAuth relay (Fastify app) against its design spec.

Shallow embedding of the code under verification:
* `getConfigValue` / `buildConfig` — src config.ts (environment-driven startup
  configuration; only the string-valued fields consulted by the modelled routes
  are carried, the omitted fields all have defaults and cannot fail startup).
* `unsignCookie` — the @fastify/cookie signer's `unsign` (split the cookie at
  its last dot, compare the trailing part against the HMAC of the leading
  part); the HMAC itself is an external primitive, modelled as an arbitrary
  function parameter `mac`.
* `getToken` — src/utils/oauth.ts `getToken` (token exchange wrapper over
  simple-oauth2, which rejects on non-success responses and network failures).
* `getGitHubUser`, `verifyUserPermission` — src/utils/github.ts.
* `callbackHandler` — the GET /callback handler registered by `callbackRoutes`
  (src/routes/callback.ts), produced as a trace of observable actions
  (cookie clearing, log lines, provider calls, the final redirect).

Provider-facing I/O is supplied as explicit environment values (`TokenFetch`,
`ProfileFetch`, `PermFetch`): each value describes how the single call to that
provider endpoint resolves for the request under consideration.
-/

namespace OAuthApp

/-- An HMAC function (secret → payload → digest), external to the repository
(node's `crypto.createHmac`). Kept abstract; real digests are non-empty
base64url strings, which individual theorems assume where needed. -/
abbrev Mac := String → String → String

/-- JS falsiness of an optional query-string value: absent or the empty
string. Mirrors conditions such as `if (!code)` in callback.ts. -/
def jsFalsy : Option String → Bool
  | none => true
  | some s => s == ""

/-- JS string interpolation of a possibly-undefined value: `undefined`
renders as the literal text "undefined" inside a template string. -/
def jsStr : Option String → String
  | none => "undefined"
  | some s => s

/-! ### Configuration (src config.ts) -/

/-- The string-valued configuration fields consulted by the OAuth flow.
From `config` in config.ts; numeric fields (port, rate limits) and
nodeEnv/host/logLevel are omitted as no modelled route reads them (they all
carry defaults, so their omission does not change startup failure behaviour). -/
structure Config where
  clientId : String
  clientSecret : String
  callbackUrl : String
  scope : String
  repo : String
  frontendUrl : String
  sessionSecret : String
  deriving DecidableEq

/-- `getConfigValue` from config.ts: return the environment value when it is
truthy (present and non-empty), else the default when one was supplied, else
fail (a thrown `Error` at module load, i.e. startup). -/
def getConfigValue (env : String → Option String) (key : String)
    (defaultValue : Option String) : Except String String :=
  match env key with
  | some value =>
    if value == "" then
      match defaultValue with
      | some d => Except.ok d
      | none => Except.error
          ("Missing environment variable: " ++ key ++ " and no default value provided.")
    else Except.ok value
  | none =>
    match defaultValue with
    | some d => Except.ok d
    | none => Except.error
        ("Missing environment variable: " ++ key ++ " and no default value provided.")

/-- Building the `config` object at startup (module load of config.ts), in
source field order. Any `Except.error` models the thrown `Error` that
prevents the process from starting. -/
def buildConfig (env : String → Option String) : Except String Config := do
  let clientId ← getConfigValue env "GITHUB_CLIENT_ID" none
  let clientSecret ← getConfigValue env "GITHUB_CLIENT_SECRET" none
  let callbackUrl ← getConfigValue env "GITHUB_CALLBACK_URL" none
  let scope ← getConfigValue env "GITHUB_SCOPE" (some "repo")
  let repo ← getConfigValue env "GITHUB_REPO" none
  let frontendUrl ← getConfigValue env "FRONTEND_URL" none
  let sessionSecret ← getConfigValue env "SESSION_SECRET"
      (some "a_very_strong_secret_key_that_should_be_changed")
  Except.ok
    { clientId := clientId, clientSecret := clientSecret, callbackUrl := callbackUrl,
      scope := scope, repo := repo, frontendUrl := frontendUrl,
      sessionSecret := sessionSecret }

/-! ### Signed-cookie verification (@fastify/cookie signer `unsign`) -/

/-- Result of `request.unsignCookie`: `valid` flag plus the recovered value
(`null` when invalid). The signer always returns such an object (never a
falsy value). -/
structure UnsignResult where
  valid : Bool
  value : Option String
  deriving DecidableEq

/-- Index of the last '.' in a list of characters, if any
(JS `String.prototype.lastIndexOf`). -/
def lastDotIdx (l : List Char) : Option Nat :=
  match l.reverse.indexOf? '.' with
  | some j => some (l.length - 1 - j)
  | none => none

/-- `signedValue.slice(0, signedValue.lastIndexOf('.'))` — with JS semantics
`slice(0, -1)` (drop the final character) when there is no dot. -/
def sliceBeforeLastDot (s : String) : String :=
  match lastDotIdx s.toList with
  | some i => String.mk (s.toList.take i)
  | none => String.mk (s.toList.take (s.toList.length - 1))

/-- `signedValue.slice(signedValue.lastIndexOf('.') + 1)` — the whole string
when there is no dot (`slice(0)`). -/
def sliceAfterLastDot (s : String) : String :=
  match lastDotIdx s.toList with
  | some i => String.mk (s.toList.drop (i + 1))
  | none => s

/-- The @fastify/cookie signer's `unsign`: split at the last dot, recompute
the HMAC of the value part and compare it with the signature part. -/
def unsignCookie (mac : Mac) (secret signedValue : String) : UnsignResult :=
  let value := sliceBeforeLastDot signedValue
  let signature := sliceAfterLastDot signedValue
  if signature == mac secret value then { valid := true, value := some value }
  else { valid := false, value := none }

/-! ### URL encoding (JS builtins used when the handler assembles redirects) -/

/-- Uppercase hexadecimal digit. -/
def hexDigitChar (n : Nat) : Char :=
  if n < 10 then Char.ofNat (0x30 + n) else Char.ofNat (0x41 + (n - 10))

/-- One percent-escaped byte, e.g. 32 ↦ "%20". -/
def percentEncodeByte (b : Nat) : List Char :=
  ['%', hexDigitChar (b / 16), hexDigitChar (b % 16)]

/-- UTF-8 bytes of a character. -/
def utf8EncodeChar (c : Char) : List Nat :=
  let n := c.toNat
  if n < 0x80 then [n]
  else if n < 0x800 then [0xC0 + n / 0x40, 0x80 + n % 0x40]
  else if n < 0x10000 then
    [0xE0 + n / 0x1000, 0x80 + (n / 0x40) % 0x40, 0x80 + n % 0x40]
  else
    [0xF0 + n / 0x40000, 0x80 + (n / 0x1000) % 0x40, 0x80 + (n / 0x40) % 0x40,
      0x80 + n % 0x40]

/-- Characters `encodeURIComponent` leaves unescaped. -/
def uriUnreserved (c : Char) : Bool :=
  c.isAlphanum || c == '-' || c == '_' || c == '.' || c == '!' || c == '~' ||
    c == '*' || c == '\'' || c == '(' || c == ')'

/-- JS `encodeURIComponent`. -/
def encodeURIComponent (s : String) : String :=
  String.mk ((s.toList.map fun c =>
    if uriUnreserved c then [c]
    else ((utf8EncodeChar c).map percentEncodeByte).flatten).flatten)

/-- Characters the `application/x-www-form-urlencoded` serializer leaves
unescaped (URLSearchParams). -/
def formUnreserved (c : Char) : Bool :=
  c.isAlphanum || c == '*' || c == '-' || c == '.' || c == '_'

/-- One character under the `application/x-www-form-urlencoded` serializer:
space becomes '+', unreserved characters pass through, everything else is
percent-escaped byte-wise. -/
def formEncodeChar (c : Char) : List Char :=
  if c == ' ' then ['+']
  else if formUnreserved c then [c]
  else ((utf8EncodeChar c).map percentEncodeByte).flatten

/-- `application/x-www-form-urlencoded` serialization of one component. -/
def formEncode (s : String) : String :=
  String.mk ((s.toList.map formEncodeChar).flatten)

/-- `new URLSearchParams(pairs).toString()` with the pairs in object-literal
insertion order. -/
def urlSearchParamsToString (ps : List (String × String)) : String :=
  String.intercalate "&" (ps.map fun p => formEncode p.1 ++ "=" ++ formEncode p.2)

/-! ### Token exchange (src/utils/oauth.ts `getToken`) -/

/-- How `oauthClient.getToken` (simple-oauth2) resolves for this request.
`threw` covers both a non-success provider response and a network failure,
for both of which the library rejects with an error; `got` is a resolved
token object, whose `token.access_token` is either a string (`some`) or
some non-string value (`none`). -/
inductive TokenFetch where
  | threw (msg : String)
  | got (accessToken : Option String)
  deriving DecidableEq

/-- Outcome of `getToken`: the returned access-token string, or the thrown
`Error`'s message. -/
inductive TokenResult where
  | ok (token : String)
  | error (msg : String)
  deriving DecidableEq

/-- The body of `getToken`'s try block: await the library call and require a
string `access_token`, otherwise throw. -/
def getTokenTry : TokenFetch → TokenResult
  | TokenFetch.threw msg => TokenResult.error msg
  | TokenFetch.got (some s) => TokenResult.ok s
  | TokenFetch.got none =>
    TokenResult.error
      "Access token received from GitHub is not in the expected string format."

/-- `getToken` from oauth.ts: the catch block wraps any failure message and
rethrows `Failed to obtain access token from GitHub: ...`. -/
def getToken (t : TokenFetch) : TokenResult :=
  match getTokenTry t with
  | TokenResult.ok s => TokenResult.ok s
  | TokenResult.error msg =>
    TokenResult.error ("Failed to obtain access token from GitHub: " ++ msg)

/-! ### Profile fetch (src/utils/github.ts `getGitHubUser`) -/

/-- A GitHub user profile as parsed from the `GET /user` response. -/
structure GitHubUserProfile where
  login : String
  id : Nat
  deriving DecidableEq

/-- How the profile fetch resolves: the `fetch`/body read threw, or a
response arrived with the given status whose body parses to `profile`
(the body is only consulted on a success status). -/
inductive ProfileFetch where
  | exception (msg : String)
  | response (status : Nat) (profile : GitHubUserProfile)
  deriving DecidableEq

/-- `Response.ok` of the Fetch API: status in the range 200–299. -/
def respOk (status : Nat) : Bool := 200 ≤ status && status < 300

/-- `getGitHubUser` from github.ts: null on a non-success response or any
thrown error, the parsed profile otherwise. -/
def getGitHubUser : ProfileFetch → Option GitHubUserProfile
  | ProfileFetch.exception _ => none
  | ProfileFetch.response status profile =>
    if respOk status then some profile else none

/-! ### Permission check (src/utils/github.ts `verifyUserPermission`) -/

/-- How the permission-endpoint fetch resolves: the `fetch`/body read/JSON
parse threw, or a response arrived with the given status whose JSON body has
the given `permission` field (only consulted on a success status). -/
inductive PermFetch where
  | exception (msg : String)
  | response (status : Nat) (permission : String)
  deriving DecidableEq

/-- Outcome of `verifyUserPermission`: a returned boolean, or a thrown
`Error` with the given message. -/
inductive PermCheckResult where
  | ok (hasPermission : Bool)
  | thrown (msg : String)
  deriving DecidableEq

/-- The body of `verifyUserPermission`'s try block: 404 → false, any other
non-success status → throw, success → membership of the `permission` field
in admin/write/maintain. -/
def verifyUserPermissionTry : PermFetch → PermCheckResult
  | PermFetch.exception msg => PermCheckResult.thrown msg
  | PermFetch.response status permission =>
    if !respOk status then
      if status == 404 then PermCheckResult.ok false
      else
        PermCheckResult.thrown
          ("Failed to verify user permission. Status: " ++ toString status)
    else PermCheckResult.ok ((["admin", "write", "maintain"]).contains permission)

/-- `verifyUserPermission` from github.ts: the repo-format check sits outside
the try block (its throw propagates to the caller), while the catch block
catches everything thrown inside the try — including the function's own
non-404 status throw — logs, and returns false. -/
def verifyUserPermission (repo : String) (r : PermFetch) : PermCheckResult :=
  if !(repo.toList.contains '/') then
    PermCheckResult.thrown "Invalid GITHUB_REPO format. Expected owner/repo."
  else
    match verifyUserPermissionTry r with
    | PermCheckResult.thrown _ => PermCheckResult.ok false
    | res => res

/-! ### The GET /callback handler (src/routes/callback.ts) -/

/-- Query parameters of the callback request, already URL-decoded by the
framework's query-string parser. -/
structure CallbackQuery where
  code : Option String
  state : Option String
  error : Option String
  error_description : Option String
  deriving DecidableEq

/-- The provider-facing environment of one callback request: how each of the
three provider calls would resolve, were it made. -/
structure ProviderEnv where
  token : TokenFetch
  profile : ProfileFetch
  perm : PermFetch
  deriving DecidableEq

/-- One observable action of the handler, in execution order: clearing a
cookie, a log line (handler-level logs only; logging inside the utility
functions is not traced), one of the three provider calls, or the final
redirect response. -/
inductive Action where
  | clearCookie (name : String)
  | logInfo (msg : String)
  | logWarn (msg : String)
  | logError (msg : String)
  | tokenEndpointCall
  | profileEndpointCall
  | permissionEndpointCall
  | redirect (url : String)
  deriving DecidableEq

/-- The CSRF guard in callback.ts:
`!queryState || !cookieState || !cookieState.valid || cookieState.value !== queryState`
(`cookieState` itself is always an object, so its own falsiness test never
fires and is dropped). -/
def stateValidationFails (q : CallbackQuery) (cookieState : UnsignResult) : Bool :=
  jsFalsy q.state || !cookieState.valid || cookieState.value != q.state

/-- Redirect URL to the failure terminal, as callback.ts builds it:
`/error?` plus URLSearchParams over the already-`encodeURIComponent`-ed
message and the configured frontend origin. -/
def errorRedirectUrl (msg origin : String) : String :=
  "/error?" ++ urlSearchParamsToString
    [("error", encodeURIComponent msg), ("origin", origin)]

/-- The generic message of the handler's catch-all. -/
def internalErrorMessage : String :=
  "An internal error occurred during callback processing."

/-- The GET /callback handler, as the trace of its observable actions.
Mirrors callback.ts line by line: unsign the state cookie (empty string when
the cookie is absent), clear the cookie, run the CSRF guard, then the
provider-error and missing-code checks, then the try block chaining token
exchange → profile fetch → permission check, with the catch-all mapping any
thrown error to the generic internal-error redirect. -/
def callbackHandler (cfg : Config) (mac : Mac) (q : CallbackQuery)
    (rawCookie : Option String) (env : ProviderEnv) : List Action :=
  let cookieState := unsignCookie mac cfg.sessionSecret (rawCookie.getD "")
  Action.clearCookie "oauth_state" ::
  if stateValidationFails q cookieState then
    [Action.logWarn
        "Invalid OAuth state parameter or cookie mismatch. Potential CSRF attack.",
      Action.redirect (errorRedirectUrl
        ("CSRF validation failed: " ++
          (if !cookieState.valid then "Invalid state cookie signature."
           else "State parameter mismatch or missing."))
        cfg.frontendUrl)]
  else
    Action.logInfo "OAuth state validated successfully." ::
    if !(jsFalsy q.error) then
      [Action.logError
          ("OAuth Error from GitHub: " ++ jsStr q.error ++ " - " ++
            jsStr q.error_description),
        Action.redirect (errorRedirectUrl
          (if jsFalsy q.error_description then
            "An error occurred during GitHub authentication."
           else jsStr q.error_description)
          cfg.frontendUrl)]
    else if jsFalsy q.code then
      [Action.logError "No authorization code received from GitHub.",
        Action.redirect (errorRedirectUrl
          "Authorization code missing from GitHub callback." cfg.frontendUrl)]
    else
      Action.logInfo "Exchanging authorization code for access token..." ::
      Action.tokenEndpointCall ::
      match getToken env.token with
      | TokenResult.error _ =>
        [Action.logError "Error in /callback route processing",
          Action.redirect (errorRedirectUrl internalErrorMessage cfg.frontendUrl)]
      | TokenResult.ok accessToken =>
        Action.logInfo "Access token obtained successfully." ::
        Action.profileEndpointCall ::
        match getGitHubUser env.profile with
        | none =>
          [Action.logError "Failed to fetch GitHub user profile.",
            Action.redirect (errorRedirectUrl
              "Failed to fetch user profile from GitHub." cfg.frontendUrl)]
        | some githubUser =>
          Action.logInfo ("GitHub user profile fetched: " ++ githubUser.login) ::
          Action.logInfo
            ("Verifying repository permissions for user: " ++ githubUser.login ++
              " on repo: " ++ cfg.repo) ::
          Action.permissionEndpointCall ::
          match verifyUserPermission cfg.repo env.perm with
          | PermCheckResult.thrown _ =>
            [Action.logError "Error in /callback route processing",
              Action.redirect (errorRedirectUrl internalErrorMessage cfg.frontendUrl)]
          | PermCheckResult.ok true =>
            [Action.logInfo
                ("User " ++ githubUser.login ++ " has sufficient permissions for " ++
                  cfg.repo ++ "."),
              Action.redirect ("/success?" ++ urlSearchParamsToString
                [("token", accessToken), ("origin", cfg.frontendUrl)])]
          | PermCheckResult.ok false =>
            [Action.logWarn
                ("User " ++ githubUser.login ++
                  " does NOT have sufficient permissions for " ++ cfg.repo ++ "."),
              Action.redirect (errorRedirectUrl
                "Access Denied: You do not have sufficient permissions for the configured repository."
                cfg.frontendUrl)]

/-- The URL of the first (in the handler: only) redirect in a trace. -/
def redirectOf : List Action → Option String
  | [] => none
  | Action.clearCookie _ :: rest => redirectOf rest
  | Action.logInfo _ :: rest => redirectOf rest
  | Action.logWarn _ :: rest => redirectOf rest
  | Action.logError _ :: rest => redirectOf rest
  | Action.tokenEndpointCall :: rest => redirectOf rest
  | Action.profileEndpointCall :: rest => redirectOf rest
  | Action.permissionEndpointCall :: rest => redirectOf rest
  | Action.redirect u :: _ => some u

/-- Number of token-endpoint calls in a trace. -/
def countTokenCalls (trace : List Action) : Nat :=
  trace.countP fun a => decide (a = Action.tokenEndpointCall)


/-! ### Concrete example inputs (used by counterexamples and witnesses) -/

/-- A concrete HMAC stand-in: digests are trivially non-empty and dot-free. -/
def macEx : Mac := fun secret v => "M" ++ secret ++ v

/-- A concrete well-formed configuration. -/
def cfgEx : Config :=
  { clientId := "id", clientSecret := "cs", callbackUrl := "http://cb",
    scope := "repo", repo := "owner/repo", frontendUrl := "http://front",
    sessionSecret := "sec" }

/-- A concrete callback query with matching state and a code. -/
def qEx : CallbackQuery :=
  { code := some "code123", state := some "abc", error := none,
    error_description := none }

/-- The signed state cookie matching `qEx` under `macEx` and `cfgEx`. -/
def cookieEx : String := "abc.Msecabc"

/-- A fully successful provider environment: token exchange yields "tok123",
the profile is alice, and alice has write permission. -/
def envEx : ProviderEnv :=
  { token := TokenFetch.got (some "tok123"),
    profile := ProfileFetch.response 200 { login := "alice", id := 1 },
    perm := PermFetch.response 200 "write" }

/-! ### Helper lemmas -/

/-- Unsigning the empty string (the absent-cookie case) fails signature
verification whenever the HMAC digest of the empty payload is non-empty. -/
theorem unsignCookie_empty (mac : Mac) (secret : String)
    (h : mac secret "" ≠ "") :
    unsignCookie mac secret "" = { valid := false, value := none } := by
  have h1 : sliceBeforeLastDot "" = "" := rfl
  have h2 : sliceAfterLastDot "" = "" := rfl
  unfold unsignCookie
  rw [h1, h2, if_neg]
  simp only [beq_iff_eq]
  exact fun e => h e.symm

/-- Membership in the privileged-permission list coincides with the
spec-level disjunction. -/
theorem contains_privileged (perm : String) :
    (["admin", "write", "maintain"] : List String).contains perm =
      decide (perm = "admin" ∨ perm = "write" ∨ perm = "maintain") := by
  by_cases h1 : perm = "admin" <;> by_cases h2 : perm = "write" <;>
    by_cases h3 : perm = "maintain" <;>
    simp [h1, h2, h3, List.contains]

/-! ### Claim theorems -/

/-- C6: permission classification on a successful (2xx) permission-endpoint
response returns true exactly when the permission field is one of "admin",
"write" or "maintain" (false for "read", "none" and every other string —
fail closed), and a 404 response returns false without raising an error. -/
theorem permission_classification (repo perm : String) (status : Nat)
    (hrepo : repo.toList.contains '/' = true)
    (hok : respOk status = true) :
    verifyUserPermission repo (PermFetch.response status perm) =
      PermCheckResult.ok
        (decide (perm = "admin" ∨ perm = "write" ∨ perm = "maintain")) ∧
    verifyUserPermission repo (PermFetch.response 404 perm) =
      PermCheckResult.ok false := by
  have h404 : respOk 404 = false := by decide
  constructor
  · unfold verifyUserPermission verifyUserPermissionTry
    rw [hrepo]
    simp [hok, contains_privileged]
  · unfold verifyUserPermission verifyUserPermissionTry
    rw [hrepo]
    simp [h404]

/-- Witness for C6 at permission "write" (status 200) and at "read". -/
theorem permission_classification_witness :
    verifyUserPermission "owner/repo" (PermFetch.response 200 "write") =
      PermCheckResult.ok true ∧
    verifyUserPermission "owner/repo" (PermFetch.response 200 "read") =
      PermCheckResult.ok false ∧
    verifyUserPermission "owner/repo" (PermFetch.response 404 "") =
      PermCheckResult.ok false := by
  refine ⟨?_, ?_, ?_⟩
  · have := (permission_classification "owner/repo" "write" 200 (by decide)
      (by decide)).1
    simpa using this
  · have := (permission_classification "owner/repo" "read" 200 (by decide)
      (by decide)).1
    simpa using this
  · exact (permission_classification "owner/repo" "" 200 (by decide) (by decide)).2

/-- C4: every invocation of the callback handler clears the `oauth_state`
cookie as its first action, before any outcome, and every branch ends in a
redirect (the outcome). -/
theorem callback_always_clears_state_cookie (cfg : Config) (mac : Mac)
    (q : CallbackQuery) (rawCookie : Option String) (env : ProviderEnv) :
    (callbackHandler cfg mac q rawCookie env).head? =
      some (Action.clearCookie "oauth_state") ∧
    (redirectOf (callbackHandler cfg mac q rawCookie env)).isSome = true := by
  constructor
  · rfl
  · unfold callbackHandler
    repeat' first
      | split
      | simp only [redirectOf, Option.isSome_some]


/-- When the CSRF guard fires, the handler's whole trace is: clear the
cookie, the generic warning log, and the redirect carrying the
cause-specific message. -/
theorem callbackHandler_csrf_branch (cfg : Config) (mac : Mac)
    (q : CallbackQuery) (rawCookie : Option String) (env : ProviderEnv)
    (h : stateValidationFails q
      (unsignCookie mac cfg.sessionSecret (rawCookie.getD "")) = true) :
    callbackHandler cfg mac q rawCookie env =
      [Action.clearCookie "oauth_state",
        Action.logWarn
          "Invalid OAuth state parameter or cookie mismatch. Potential CSRF attack.",
        Action.redirect (errorRedirectUrl
          ("CSRF validation failed: " ++
            (if !(unsignCookie mac cfg.sessionSecret (rawCookie.getD "")).valid then
              "Invalid state cookie signature."
             else "State parameter mismatch or missing."))
          cfg.frontendUrl)] := by
  simp only [callbackHandler, h, if_true]

/-- C3: the callback's state validation fails — and the flow redirects to the
failure terminal instead of proceeding — whenever the state cookie is absent,
its signature is invalid, or the unsigned cookie value differs from the
query-string state; it passes only when the signature verifies and the two
values are byte-equal. -/
theorem state_validation_correct (cfg : Config) (mac : Mac) (q : CallbackQuery)
    (rawCookie : Option String) (env : ProviderEnv)
    (hmac : mac cfg.sessionSecret "" ≠ "") :
    (rawCookie = none →
      stateValidationFails q
        (unsignCookie mac cfg.sessionSecret (rawCookie.getD "")) = true) ∧
    (∀ c : String, (unsignCookie mac cfg.sessionSecret c).valid = false →
      stateValidationFails q (unsignCookie mac cfg.sessionSecret c) = true) ∧
    (∀ c : String, (unsignCookie mac cfg.sessionSecret c).value ≠ q.state →
      stateValidationFails q (unsignCookie mac cfg.sessionSecret c) = true) ∧
    (stateValidationFails q
        (unsignCookie mac cfg.sessionSecret (rawCookie.getD "")) = false →
      (unsignCookie mac cfg.sessionSecret (rawCookie.getD "")).valid = true ∧
      ∃ s, q.state = some s ∧
        (unsignCookie mac cfg.sessionSecret (rawCookie.getD "")).value = some s) ∧
    (stateValidationFails q
        (unsignCookie mac cfg.sessionSecret (rawCookie.getD "")) = true →
      redirectOf (callbackHandler cfg mac q rawCookie env) =
        some (errorRedirectUrl
          ("CSRF validation failed: " ++
            (if !(unsignCookie mac cfg.sessionSecret (rawCookie.getD "")).valid then
              "Invalid state cookie signature."
             else "State parameter mismatch or missing."))
          cfg.frontendUrl)) := by
  refine ⟨?_, ?_, ?_, ?_, ?_⟩
  · intro hnone
    subst hnone
    simp [stateValidationFails, unsignCookie_empty mac cfg.sessionSecret hmac]
  · intro c hc
    simp [stateValidationFails, hc]
  · intro c hc
    have : ((unsignCookie mac cfg.sessionSecret c).value != q.state) = true :=
      bne_iff_ne.mpr hc
    simp [stateValidationFails, this]
  · intro hpass
    simp only [stateValidationFails, Bool.or_eq_false_iff, Bool.not_eq_false',
      bne_eq_false_iff_eq] at hpass
    obtain ⟨⟨hq, hvalid⟩, hval⟩ := hpass
    refine ⟨hvalid, ?_⟩
    match hs : q.state with
    | none => rw [hs] at hq; simp [jsFalsy] at hq
    | some s =>
      rw [hs] at hval
      exact ⟨s, rfl, hval⟩
  · intro hfail
    rw [callbackHandler_csrf_branch cfg mac q rawCookie env hfail]
    rfl

/-- Witness for C3: a request with mismatching state ("zzz" in the query,
"abc" in the cookie) under a valid signature. -/
theorem state_validation_correct_witness :
    stateValidationFails
      { code := some "code123", state := some "zzz", error := none,
        error_description := none }
      (unsignCookie macEx cfgEx.sessionSecret ((some cookieEx).getD "")) = true := by
  have := (state_validation_correct cfgEx macEx
    { code := some "code123", state := some "zzz", error := none,
      error_description := none }
    (some cookieEx) envEx (by decide)).2.2.1
  exact this cookieEx (by decide)

/-- C10: when the oauth_state cookie is entirely absent, the handler still
redirects to the failure terminal with a CSRF message and the configured
origin, and the cause it reports is "Invalid state cookie signature."
(signature verification of the empty string fails), not a distinct
missing-cookie or mismatch cause. -/
theorem absent_cookie_reports_invalid_signature (cfg : Config) (mac : Mac)
    (q : CallbackQuery) (env : ProviderEnv)
    (hmac : mac cfg.sessionSecret "" ≠ "") :
    callbackHandler cfg mac q none env =
      [Action.clearCookie "oauth_state",
        Action.logWarn
          "Invalid OAuth state parameter or cookie mismatch. Potential CSRF attack.",
        Action.redirect (errorRedirectUrl
          "CSRF validation failed: Invalid state cookie signature."
          cfg.frontendUrl)] := by
  have hcs : unsignCookie mac cfg.sessionSecret "" =
      { valid := false, value := none } := unsignCookie_empty mac cfg.sessionSecret hmac
  have hfail : stateValidationFails q
      (unsignCookie mac cfg.sessionSecret ((none : Option String).getD "")) = true := by
    simp [stateValidationFails, Option.getD, hcs]
  rw [callbackHandler_csrf_branch cfg mac q none env hfail]
  simp [Option.getD, hcs]

/-- Witness for C10 at the concrete example configuration. -/
theorem absent_cookie_reports_invalid_signature_witness :
    callbackHandler cfgEx macEx qEx none envEx =
      [Action.clearCookie "oauth_state",
        Action.logWarn
          "Invalid OAuth state parameter or cookie mismatch. Potential CSRF attack.",
        Action.redirect (errorRedirectUrl
          "CSRF validation failed: Invalid state cookie signature."
          cfgEx.frontendUrl)] :=
  absent_cookie_reports_invalid_signature cfgEx macEx qEx envEx (by decide)


/-- C5: with a valid byte-matching state, no provider error, a code present,
a token exchange returning `t`, a non-null profile, and a sufficient
permission classification, the handler redirects to /success carrying
query parameters token = `t` and origin = the configured frontend origin. -/
theorem success_path_redirect (cfg : Config) (mac : Mac) (q : CallbackQuery)
    (rawCookie : Option String) (env : ProviderEnv) (t : String)
    (hval : stateValidationFails q
      (unsignCookie mac cfg.sessionSecret (rawCookie.getD "")) = false)
    (herr : jsFalsy q.error = true)
    (hcode : jsFalsy q.code = false)
    (htok : getToken env.token = TokenResult.ok t)
    (hprof : (getGitHubUser env.profile).isSome = true)
    (hperm : verifyUserPermission cfg.repo env.perm = PermCheckResult.ok true) :
    redirectOf (callbackHandler cfg mac q rawCookie env) =
      some ("/success?" ++ urlSearchParamsToString
        [("token", t), ("origin", cfg.frontendUrl)]) := by
  obtain ⟨user, hu⟩ := Option.isSome_iff_exists.mp hprof
  simp [callbackHandler, hval, herr, hcode, htok, hu, hperm, redirectOf]

/-- Witness for C5 at the concrete example request. -/
theorem success_path_redirect_witness :
    redirectOf (callbackHandler cfgEx macEx qEx (some cookieEx) envEx) =
      some ("/success?" ++ urlSearchParamsToString
        [("token", "tok123"), ("origin", cfgEx.frontendUrl)]) :=
  success_path_redirect cfgEx macEx qEx (some cookieEx) envEx "tok123"
    (by decide) (by decide) (by decide) (by decide) (by decide) (by decide)

/-- C7: when the token exchange fails for any of its three causes (the
provider client rejected — covering a non-success token-endpoint response and
a network failure — or the payload's access token is not a string), `getToken`
produces a token-exchange error, the handler's catch-all turns it into the
generic internal-failure redirect (no thrown value escapes: the trace still
ends in a redirect), and the token endpoint was called exactly once (no
retry). -/
theorem token_exchange_failure_contained (cfg : Config) (mac : Mac)
    (q : CallbackQuery) (rawCookie : Option String) (env : ProviderEnv)
    (hval : stateValidationFails q
      (unsignCookie mac cfg.sessionSecret (rawCookie.getD "")) = false)
    (herr : jsFalsy q.error = true)
    (hcode : jsFalsy q.code = false)
    (hfail : (∃ m, env.token = TokenFetch.threw m) ∨
      env.token = TokenFetch.got none) :
    (∃ m, getToken env.token = TokenResult.error m) ∧
    redirectOf (callbackHandler cfg mac q rawCookie env) =
      some (errorRedirectUrl internalErrorMessage cfg.frontendUrl) ∧
    countTokenCalls (callbackHandler cfg mac q rawCookie env) = 1 := by
  have herror : ∃ m, getToken env.token = TokenResult.error m := by
    rcases hfail with ⟨m, hm⟩ | hm <;> rw [hm] <;> exact ⟨_, rfl⟩
  obtain ⟨m, hm⟩ := herror
  have htrace : callbackHandler cfg mac q rawCookie env =
      [Action.clearCookie "oauth_state",
        Action.logInfo "OAuth state validated successfully.",
        Action.logInfo "Exchanging authorization code for access token...",
        Action.tokenEndpointCall,
        Action.logError "Error in /callback route processing",
        Action.redirect (errorRedirectUrl internalErrorMessage cfg.frontendUrl)] := by
    simp [callbackHandler, hval, herr, hcode, hm]
  refine ⟨⟨m, hm⟩, ?_, ?_⟩
  · rw [htrace]; rfl
  · rw [htrace]; rfl

/-- Witness for C7: the token endpoint rejects with HTTP 502. -/
theorem token_exchange_failure_contained_witness :
    redirectOf (callbackHandler cfgEx macEx qEx (some cookieEx)
        { envEx with token := TokenFetch.threw "Response Error: 502 Bad Gateway" }) =
      some (errorRedirectUrl internalErrorMessage cfgEx.frontendUrl) :=
  (token_exchange_failure_contained cfgEx macEx qEx (some cookieEx)
    { envEx with token := TokenFetch.threw "Response Error: 502 Bad Gateway" }
    (by decide) (by decide) (by decide) (Or.inl ⟨_, rfl⟩)).2.1


/-- A concrete callback query whose `error` parameter is present but empty
and whose `code` is absent (state matches `cookieEx`). -/
def qEmptyErrorEx : CallbackQuery :=
  { code := none, state := some "abc", error := some "",
    error_description := none }

/-- C9 counterexample: with the provider `error` parameter present (as the
empty string) and no code, the flow nevertheless fails with the
"Authorization code missing" reason — refuting the claim that this reason
occurs only when neither `error` nor `code` is present (the handler tests JS
truthiness, not presence). -/
theorem empty_error_param_treated_as_absent :
    qEmptyErrorEx.error = some "" ∧
    redirectOf (callbackHandler cfgEx macEx qEmptyErrorEx (some cookieEx) envEx) =
      some (errorRedirectUrl "Authorization code missing from GitHub callback."
        cfgEx.frontendUrl) := by
  exact ⟨rfl, rfl⟩

/-- C9 (amended: "present" read as carrying a non-empty value, as the code's
truthiness tests do): after successful validation, a non-empty `error`
parameter redirects to the failure terminal with `error_description` as the
message — or the generic fallback when `error_description` is absent or
empty — regardless of whether a code is present; and when `error` and `code`
are both absent or empty the flow fails with the
"Authorization code missing" reason. -/
theorem provider_error_before_code_check (cfg : Config) (mac : Mac)
    (q : CallbackQuery) (rawCookie : Option String) (env : ProviderEnv)
    (hval : stateValidationFails q
      (unsignCookie mac cfg.sessionSecret (rawCookie.getD "")) = false) :
    (jsFalsy q.error = false →
      redirectOf (callbackHandler cfg mac q rawCookie env) =
        some (errorRedirectUrl
          (if jsFalsy q.error_description then
            "An error occurred during GitHub authentication."
           else jsStr q.error_description)
          cfg.frontendUrl)) ∧
    (jsFalsy q.error = true → jsFalsy q.code = true →
      redirectOf (callbackHandler cfg mac q rawCookie env) =
        some (errorRedirectUrl "Authorization code missing from GitHub callback."
          cfg.frontendUrl)) := by
  constructor
  · intro herr
    simp [callbackHandler, hval, herr, redirectOf]
  · intro herr hcode
    simp [callbackHandler, hval, herr, hcode, redirectOf]

/-- Witness for C9: provider denial with a description, and a missing code. -/
theorem provider_error_before_code_check_witness :
    redirectOf (callbackHandler cfgEx macEx
        { code := some "code123", state := some "abc",
          error := some "access_denied",
          error_description := some "User denied" }
        (some cookieEx) envEx) =
      some (errorRedirectUrl "User denied" cfgEx.frontendUrl) := by
  have := (provider_error_before_code_check cfgEx macEx
    { code := some "code123", state := some "abc", error := some "access_denied",
      error_description := some "User denied" }
    (some cookieEx) envEx (by decide)).1 (by decide)
  simpa using this


/-- Two-element URLSearchParams serialization, unfolded. -/
theorem urlSearchParamsToString_pair (k1 v1 k2 v2 : String) :
    urlSearchParamsToString [(k1, v1), (k2, v2)] =
      formEncode k1 ++ "=" ++ formEncode v1 ++ "&" ++
        (formEncode k2 ++ "=" ++ formEncode v2) := rfl

/-- The failure-terminal URLs built from the two CSRF cause messages differ
for every origin: their encoded error components have different lengths. -/
theorem csrf_redirect_urls_differ (o : String) :
    errorRedirectUrl "CSRF validation failed: Invalid state cookie signature." o ≠
      errorRedirectUrl "CSRF validation failed: State parameter mismatch or missing." o := by
  intro heq
  have h83 : (formEncode (encodeURIComponent
      "CSRF validation failed: Invalid state cookie signature.")).length = 83 := by
    decide
  have h92 : (formEncode (encodeURIComponent
      "CSRF validation failed: State parameter mismatch or missing.")).length = 92 := by
    decide
  have hlen := congrArg String.length heq
  simp only [errorRedirectUrl, urlSearchParamsToString_pair, String.length_append,
    h83, h92] at hlen
  omega

/-- C2 counterexample: an invalid-signature request and a state-mismatch
request produce different client-observable redirect URLs (the error query
parameter names the cause), refuting that the two responses are identical. -/
theorem csrf_failure_responses_differ :
    redirectOf (callbackHandler cfgEx macEx qEx (some "abc.WRONG") envEx) ≠
      redirectOf (callbackHandler cfgEx macEx
        { code := some "code123", state := some "zzz", error := none,
          error_description := none }
        (some cookieEx) envEx) := by
  decide


/-- C2 (amended): the two CSRF-failure causes are client-observable — an
invalid cookie signature and a state-value mismatch yield different redirect
URLs, the error query parameter embedding the cause-specific message — while
the server-side warn log line is the same generic message for both. -/
theorem csrf_cause_visible_in_redirect (cfg : Config) (mac : Mac)
    (q1 q2 : CallbackQuery) (c1 c2 : String) (env1 env2 : ProviderEnv)
    (h1 : (unsignCookie mac cfg.sessionSecret c1).valid = false)
    (h2v : (unsignCookie mac cfg.sessionSecret c2).valid = true)
    (h2m : (unsignCookie mac cfg.sessionSecret c2).value ≠ q2.state) :
    callbackHandler cfg mac q1 (some c1) env1 =
      [Action.clearCookie "oauth_state",
        Action.logWarn
          "Invalid OAuth state parameter or cookie mismatch. Potential CSRF attack.",
        Action.redirect (errorRedirectUrl
          "CSRF validation failed: Invalid state cookie signature."
          cfg.frontendUrl)] ∧
    callbackHandler cfg mac q2 (some c2) env2 =
      [Action.clearCookie "oauth_state",
        Action.logWarn
          "Invalid OAuth state parameter or cookie mismatch. Potential CSRF attack.",
        Action.redirect (errorRedirectUrl
          "CSRF validation failed: State parameter mismatch or missing."
          cfg.frontendUrl)] ∧
    redirectOf (callbackHandler cfg mac q1 (some c1) env1) ≠
      redirectOf (callbackHandler cfg mac q2 (some c2) env2) := by
  have hfail1 : stateValidationFails q1
      (unsignCookie mac cfg.sessionSecret ((some c1).getD "")) = true := by
    simp [stateValidationFails, Option.getD, h1]
  have hfail2 : stateValidationFails q2
      (unsignCookie mac cfg.sessionSecret ((some c2).getD "")) = true := by
    have : ((unsignCookie mac cfg.sessionSecret c2).value != q2.state) = true :=
      bne_iff_ne.mpr h2m
    simp [stateValidationFails, Option.getD, this]
  have ht1 := callbackHandler_csrf_branch cfg mac q1 (some c1) env1 hfail1
  have ht2 := callbackHandler_csrf_branch cfg mac q2 (some c2) env2 hfail2
  rw [Option.getD] at ht1 ht2
  rw [h1] at ht1
  rw [h2v] at ht2
  simp only [Bool.not_false, Bool.not_true, if_true, if_false] at ht1 ht2
  refine ⟨ht1, ht2, ?_⟩
  rw [ht1, ht2]
  simp only [redirectOf]
  intro heq
  exact csrf_redirect_urls_differ cfg.frontendUrl (Option.some_injective _ heq)

/-- Witness for C2 (amended) at concrete requests: a tampered signature
versus a mismatched state value. -/
theorem csrf_cause_visible_in_redirect_witness :
    redirectOf (callbackHandler cfgEx macEx qEx (some "abc.WRONG") envEx) ≠
      redirectOf (callbackHandler cfgEx macEx
        { code := some "code123", state := some "zzz", error := none,
          error_description := none }
        (some cookieEx) envEx) :=
  (csrf_cause_visible_in_redirect cfgEx macEx qEx
    { code := some "code123", state := some "zzz", error := none,
      error_description := none }
    "abc.WRONG" cookieEx envEx envEx (by decide) (by decide) (by decide)).2.2


/-- C1 (code-bug evidence): on a non-404 non-success permission response
(here HTTP 500) the try body of `verifyUserPermission` does throw, but the
function's own catch-all swallows that throw and returns false, so the
Controller classifies the flow as mere insufficient permission and redirects
with the "Access Denied" reason — not with the generic internal-failure
reason the claim (and the function's own @throws documentation) requires. -/
theorem nonsuccess_permission_status_collapses_to_access_denied :
    verifyUserPermissionTry (PermFetch.response 500 "write") =
      PermCheckResult.thrown "Failed to verify user permission. Status: 500" ∧
    verifyUserPermission "owner/repo" (PermFetch.response 500 "write") =
      PermCheckResult.ok false ∧
    redirectOf (callbackHandler cfgEx macEx qEx (some cookieEx)
        { envEx with perm := PermFetch.response 500 "write" }) =
      some (errorRedirectUrl
        "Access Denied: You do not have sufficient permissions for the configured repository."
        cfgEx.frontendUrl) :=
  ⟨rfl, rfl, rfl⟩

/-- An environment with every required variable set but GITHUB_REPO lacking
the '/' separator. -/
def envVarsNoSlashEx : String → Option String := fun k =>
  if k == "GITHUB_CLIENT_ID" then some "id"
  else if k == "GITHUB_CLIENT_SECRET" then some "cs"
  else if k == "GITHUB_CALLBACK_URL" then some "http://cb"
  else if k == "GITHUB_REPO" then some "ownerrepo"
  else if k == "FRONTEND_URL" then some "http://front"
  else none

/-- The configuration `buildConfig` produces from `envVarsNoSlashEx`
(defaults fill scope and the session secret). -/
def cfgNoSlashEx : Config :=
  { clientId := "id", clientSecret := "cs", callbackUrl := "http://cb",
    scope := "repo", repo := "ownerrepo", frontendUrl := "http://front",
    sessionSecret := "a_very_strong_secret_key_that_should_be_changed" }

/-- The state cookie matching `qEx` under `macEx` and `cfgNoSlashEx`'s
default session secret. -/
def cookieNoSlashEx : String :=
  "abc.Ma_very_strong_secret_key_that_should_be_changedabc"

/-- C8 counterexample: with GITHUB_REPO = "ownerrepo" (no separator) startup
configuration loading succeeds — the process starts — and an individual
authorization flow then fails at request time: the permission check throws
over the malformed identifier and the Controller redirects with the generic
internal-failure reason. -/
theorem malformed_repo_passes_startup_and_fails_request :
    buildConfig envVarsNoSlashEx = Except.ok cfgNoSlashEx ∧
    verifyUserPermission cfgNoSlashEx.repo (PermFetch.response 200 "admin") =
      PermCheckResult.thrown "Invalid GITHUB_REPO format. Expected owner/repo." ∧
    redirectOf (callbackHandler cfgNoSlashEx macEx qEx (some cookieNoSlashEx)
        { token := TokenFetch.got (some "tok123"),
          profile := ProfileFetch.response 200 { login := "alice", id := 1 },
          perm := PermFetch.response 200 "admin" }) =
      some (errorRedirectUrl internalErrorMessage cfgNoSlashEx.frontendUrl) :=
  ⟨rfl, rfl, rfl⟩

/-- C8 (amended): a configured resource identifier missing the '/' separator
is not rejected at startup (configuration loading checks presence only, so
such a process starts), and it is a per-request condition: every permission
check against it throws, and a flow reaching the permission step ends in the
generic internal-failure redirect. -/
theorem malformed_repo_detected_per_request (envv : String → Option String)
    (cfg : Config) (mac : Mac) (q : CallbackQuery) (rawCookie : Option String)
    (env : ProviderEnv) (t : String) (r : PermFetch)
    (_hbuild : buildConfig envv = Except.ok cfg)
    (hrepo : cfg.repo.toList.contains '/' = false)
    (hval : stateValidationFails q
      (unsignCookie mac cfg.sessionSecret (rawCookie.getD "")) = false)
    (herr : jsFalsy q.error = true)
    (hcode : jsFalsy q.code = false)
    (htok : getToken env.token = TokenResult.ok t)
    (hprof : (getGitHubUser env.profile).isSome = true) :
    verifyUserPermission cfg.repo r =
      PermCheckResult.thrown "Invalid GITHUB_REPO format. Expected owner/repo." ∧
    redirectOf (callbackHandler cfg mac q rawCookie env) =
      some (errorRedirectUrl internalErrorMessage cfg.frontendUrl) := by
  have hv : ∀ r' : PermFetch, verifyUserPermission cfg.repo r' =
      PermCheckResult.thrown "Invalid GITHUB_REPO format. Expected owner/repo." := by
    intro r'
    unfold verifyUserPermission
    rw [hrepo]
    rfl
  obtain ⟨user, hu⟩ := Option.isSome_iff_exists.mp hprof
  refine ⟨hv r, ?_⟩
  simp [callbackHandler, hval, herr, hcode, htok, hu, hv env.perm, redirectOf]

/-- Witness for C8 (amended) at the concrete slashless environment. -/
theorem malformed_repo_detected_per_request_witness :
    verifyUserPermission cfgNoSlashEx.repo (PermFetch.response 200 "admin") =
      PermCheckResult.thrown "Invalid GITHUB_REPO format. Expected owner/repo." ∧
    redirectOf (callbackHandler cfgNoSlashEx macEx qEx (some cookieNoSlashEx)
        { token := TokenFetch.got (some "tok123"),
          profile := ProfileFetch.response 200 { login := "alice", id := 1 },
          perm := PermFetch.response 200 "admin" }) =
      some (errorRedirectUrl internalErrorMessage cfgNoSlashEx.frontendUrl) :=
  malformed_repo_detected_per_request envVarsNoSlashEx cfgNoSlashEx macEx qEx
    (some cookieNoSlashEx)
    { token := TokenFetch.got (some "tok123"),
      profile := ProfileFetch.response 200 { login := "alice", id := 1 },
      perm := PermFetch.response 200 "admin" }
    "tok123" (PermFetch.response 200 "admin")
    rfl (by decide) (by decide) (by decide) (by decide) (by decide) (by decide)

end OAuthApp
